import Mathlib

/-!
# An authenticated HTTP client (`api/godog/http/http.go`)

A shallow embedding of the Go package `http` of the repository: the client
that logs in (`FetchToken`), the four verb operations (`Get`, `Post`, `Put`,
`Delete`), the shared `send` routine and `parseHttpResponse`.

What lies outside the repository is a parameter of the model:

* the network (`client.Do`) and the validation done by `http.NewRequest`,
* the JSON text layer of `encoding/json` (turning a caller's value into
  bytes, scanning bytes into a JSON value, filling a caller's destination).

What the source fixes itself is modelled concretely: the login URL, the format
strings of the wrapped errors, the headers that are set, the order of the
steps and what is returned on each path. The parts of the Go libraries whose
behaviour the source relies on structurally are modelled concretely as well:
`fmt.Sprintf` for `%s`, `errors.Wrapf`, `http.Header.Set` with its key
canonicalisation, `Encoder.Encode` (the encoding followed by a newline) and the
decoding of a JSON value into the one-field struct of `FetchToken`.
-/

namespace GodogHttp

/-! ## Go library fragments -/

/-- Byte sequences (`[]byte`, the contents of a `bytes.Buffer`): each element is
a byte value, a natural number below 256. -/
abbrev Bytes := List Nat

/-- The bytes of an ASCII text. -/
def asciiBytes (s : String) : Bytes := s.data.map Char.toNat

/-- A Go `error` value that is not nil: either an error raised by a library or
by the outside world, or an error made by `errors.Wrapf` around a cause. -/
inductive GoError where
  | base (msg : String)
  | wrapped (cause : GoError) (msg : String)
  deriving DecidableEq, Repr

/-- The method `Error()`: for a wrapped error, `msg + ": " + cause.Error()`
(`withMessage.Error` of `github.com/pkg/errors`). -/
def GoError.Error : GoError → String
  | .base msg => msg
  | .wrapped cause msg => msg ++ ": " ++ cause.Error

/-- The text Go prints for operands left over after the format is used up. -/
def sprintfExtra (args : List String) : List Char :=
  "%!(EXTRA ".data ++ (", ".intercalate (args.map fun a => "string=" ++ a)).data ++ [')']

/-- The verbs of `fmt.Sprintf` that the source uses, on string operands: `%s`
is replaced by the next operand (by `%!s(MISSING)` when none is left), `%%` by a
percent sign, every other character is copied. Other verbs do not occur in
the source and are copied through. -/
def sprintfChars : List Char → List String → List Char
  | [], [] => []
  | [], a :: as => sprintfExtra (a :: as)
  | [c], [] => [c]
  | [c], a :: as => c :: sprintfExtra (a :: as)
  | c :: d :: rest, args =>
    if c = '%' then
      if d = 's' then
        match args with
        | a :: as => a.data ++ sprintfChars rest as
        | [] => "%!s(MISSING)".data ++ sprintfChars rest []
      else if d = '%' then '%' :: sprintfChars rest args
      else c :: sprintfChars (d :: rest) args
    else c :: sprintfChars (d :: rest) args

/-- The call `fmt.Sprintf(format, args...)` for string operands. -/
def Sprintf (format : String) (args : List String) : String :=
  ⟨sprintfChars format.data args⟩

/-- The call `errors.Wrapf(err, format, args...)` for an `err` that is not nil:
a new error that keeps `err` as its cause and carries the formatted message. -/
def Wrapf (err : GoError) (format : String) (args : List String) : GoError :=
  .wrapped err (Sprintf format args)

/-- The bytes allowed in a header field name (`validHeaderFieldByte`): the
token characters of RFC 7230. -/
def validHeaderFieldByte (c : Char) : Bool :=
  c.isAlphanum || "!#$%&'*+-.^_`|~".data.contains c

/-- The loop of `canonicalMIMEHeaderKey`: upper case at the start and after a
hyphen, lower case elsewhere. -/
def canonicalChars : Bool → List Char → List Char
  | _, [] => []
  | upper, c :: cs =>
    let c1 := if upper then c.toUpper else c.toLower
    c1 :: canonicalChars (c1 == '-') cs

/-- The function `textproto.CanonicalMIMEHeaderKey`: a key made of valid field
bytes only is put in canonical form, any other key is returned unchanged. -/
def CanonicalMIMEHeaderKey (s : String) : String :=
  if s.data.all validHeaderFieldByte then ⟨canonicalChars true s.data⟩ else s

/-- A Go `map[string][]string` (`http.Header`, `HttpResponse.Headers`) as an
association list; a well-formed map has no key twice. -/
abbrev Header := List (String × List String)

/-- The map has no key twice. -/
def Header.WellFormed (h : Header) : Prop := (h.map Prod.fst).Nodup

instance (h : Header) : Decidable h.WellFormed := by
  unfold Header.WellFormed; infer_instance

/-- The map index expression `h[key]` with its presence flag. -/
def Header.lookup (h : Header) (key : String) : Option (List String) :=
  List.lookup key h

/-- The map assignment `h[key] = values`. -/
def Header.assign : Header → String → List String → Header
  | [], key, values => [(key, values)]
  | (k, v) :: rest, key, values =>
    if k = key then (key, values) :: rest else (k, v) :: Header.assign rest key values

/-- The method `Header.Set`: the canonical form of the key is bound to the
single value. -/
def Header.Set (h : Header) (key value : String) : Header :=
  h.assign (CanonicalMIMEHeaderKey key) [value]

/-- The method `Header.Get`: the first value bound to the canonical form of
the key, the empty string when there is none. -/
def Header.Get (h : Header) (key : String) : String :=
  match h.lookup (CanonicalMIMEHeaderKey key) with
  | some (v :: _) => v
  | _ => ""

/-- A JSON value, as the scanner of `encoding/json` delimits it in a text. A
number keeps its literal. -/
inductive JsonValue where
  | null
  | bool (b : Bool)
  | number (literal : String)
  | string (s : String)
  | array (items : List JsonValue)
  | object (members : List (String × JsonValue))

/-- The word `encoding/json` uses for a value in an `UnmarshalTypeError`. -/
def JsonValue.kind : JsonValue → String
  | .null => "null"
  | .bool _ => "bool"
  | .number _ => "number"
  | .string _ => "string"
  | .array _ => "array"
  | .object _ => "object"

/-- The error `*json.UnmarshalTypeError` for a value of kind `value` that does
not fit the Go type `goType`. The text names the two; the struct and field
that the library adds to it are left out. -/
def unmarshalTypeError (value goType : String) : GoError :=
  .base ("json: cannot unmarshal " ++ value ++ " into Go value of type " ++ goType)

/-- The method `Encoder.Encode` of `json.NewEncoder(buf)`: when `json.Marshal`
succeeds on the value, its encoding followed by a newline character is
written to the buffer; otherwise the buffer is left alone and the error is
returned. -/
def Encode {γ : Type} (marshal : γ → Except GoError Bytes) (buf : Bytes) (v : γ) :
    Except GoError Bytes :=
  match marshal v with
  | .error err => .error err
  | .ok bs => .ok (buf ++ bs ++ [10])

/-- Case folding of one character of an object key, as far as it can meet an
ASCII letter: lower case ASCII letters fold to upper case, the Kelvin sign
folds to `K` and the long s to `S`. No other character shares a fold orbit
with an ASCII letter. -/
def foldRune (c : Char) : Char :=
  if c = Char.ofNat 0x212A then 'K'
  else if c = Char.ofNat 0x17F then 'S'
  else c.toUpper

/-- The folded form of a name (`foldName` of `encoding/json`). -/
def foldName (s : String) : String := ⟨s.data.map foldRune⟩

/-- The field lookup of the object decoder for a struct with the single JSON
name `field`: an exact match, or else a match of the folded names. -/
def matchesField (field key : String) : Bool :=
  key = field || foldName key = foldName field

/-! ## Data model (lines 13-30) -/

/-- The struct `HttpClient`. -/
structure HttpClient where
  token : String
  deriving DecidableEq, Repr

/-- The struct `HttpResponse`, the response envelope. -/
structure HttpResponse where
  Status : String
  StatusCode : Int
  Headers : Header
  Body : Bytes
  deriving DecidableEq, Repr

/-- The constructor `New`. -/
def New : HttpClient := { token := "" }

/-- The constructor `NewWithToken`. -/
def NewWithToken (token : String) : HttpClient := { token := token }

/-- The anonymous struct `out` of `FetchToken`, with the field tagged
`json:"token"`. -/
structure TokenOut where
  Token : String
  deriving DecidableEq, Repr

/-! ## The outside world -/

/-- A `*http.Request` as far as the source determines it. -/
structure Request where
  Method : String
  URL : String
  Body : Bytes
  Header : Header
  deriving DecidableEq, Repr

/-- A response body (`io.ReadCloser`): the bytes the stream delivers and the
error, if any, that reading ends with instead of the end of the stream. -/
structure BodyStream where
  data : Bytes
  readErr : Option GoError
  deriving DecidableEq, Repr

/-- A `*http.Response` as far as the source reads it. -/
structure Response where
  Status : String
  StatusCode : Int
  Header : Header
  Body : BodyStream
  deriving DecidableEq, Repr

/-- The function `ioutil.ReadAll`. -/
def ReadAll (b : BodyStream) : Except GoError Bytes :=
  match b.readErr with
  | some err => .error err
  | none => .ok b.data

/-- Everything the client depends on and the repository does not define, for
one call. `α` is the type of the callers' input payloads, `β` the type of
their output destinations. -/
structure World (α β : Type) where
  /-- The function `json.Marshal` on a caller's input payload. -/
  marshal : α → Except GoError Bytes
  /-- The function `json.Marshal` on the login struct `{username, password}`. -/
  marshalLogin : String × String → Except GoError Bytes
  /-- The checks of `http.NewRequest` on method and URL: the error, if any. -/
  checkRequest : String → String → Option GoError
  /-- The method `client.Do`: the transport. -/
  Do : Request → Except GoError Response
  /-- The scan of the next JSON value from a stream (`Decoder.Decode` before it
  stores anything): the value, or a read or syntax error. -/
  scanStream : BodyStream → Except GoError JsonValue
  /-- The function `json.Unmarshal` on a caller's output destination: the
  destination as filled, or the error. -/
  unmarshal : Bytes → β → Except GoError β

/-- The function `http.NewRequest` with a buffer as body: an empty method
means `GET`; the request starts with an empty header. -/
def NewRequest {α β : Type} (w : World α β) (method url : String) (body : Bytes) :
    Except GoError Request :=
  let method := if method = "" then "GET" else method
  match w.checkRequest method url with
  | some err => .error err
  | none => .ok { Method := method, URL := url, Body := body, Header := [] }

/-- Storing the value of an object member into the field `Token` of type
`string`: a JSON string is stored, `null` leaves the field alone, any other
value is a type error, of which the decoder keeps the first. -/
def storeToken (v : JsonValue) (st : TokenOut × Option GoError) : TokenOut × Option GoError :=
  match v with
  | .string s => ({ Token := s }, st.2)
  | .null => st
  | other =>
    (st.1, match st.2 with
      | some err => some err
      | none => some (unmarshalTypeError other.kind "string"))

/-- Decoding a scanned JSON value into the struct `out` of `FetchToken`: the
members of an object are visited in order, those whose key matches `token`
are stored and the others skipped; `null` leaves the struct alone; any other
value is a type error. -/
def decodeTokenOut (v : JsonValue) (out : TokenOut) : TokenOut × Option GoError :=
  match v with
  | .object members =>
    members.foldl
      (fun st kv => if matchesField "token" kv.1 then storeToken kv.2 st else st) (out, none)
  | .null => (out, none)
  | other => (out, some (unmarshalTypeError other.kind "struct"))

/-- The call `json.NewDecoder(body).Decode(out)` for the struct of
`FetchToken`. -/
def Decode {α β : Type} (w : World α β) (body : BodyStream) (out : TokenOut) :
    TokenOut × Option GoError :=
  match w.scanStream body with
  | .error err => (out, some err)
  | .ok v => decodeTokenOut v out

/-! ## Login (lines 32-76) -/

/-- The URL chosen by `FetchToken` (lines 44-49). -/
def loginURL (stage : String) : String :=
  if stage = "prod" then "https://api-auth.users.enlight.skf.com/login"
  else Sprintf "https://api-auth.%s.users.enlight.skf.com/login" [stage]

/-- The request `FetchToken` builds (lines 35-62): the encoded login struct is
posted to the login URL with the two headers set. -/
def loginRequest {α β : Type} (w : World α β) (stage username password : String) :
    Except GoError Request :=
  let url := loginURL stage
  match Encode w.marshalLogin [] (username, password) with
  | .error err =>
    .error (Wrapf err "Failed marshal body for POST request to endpoint: %s" [url])
  | .ok bs =>
    match NewRequest w "POST" url bs with
    | .error err => .error (Wrapf err "Failed to create POST request to endpoint: %s" [url])
    | .ok req =>
      .ok { req with
        Header := (req.Header.Set "accept" "application/json").Set
          "content-type" "application/json" }

/-- The method `FetchToken`: the client after the call and the error returned
(`none` for nil). -/
def HttpClient.FetchToken {α β : Type} (w : World α β) (c : HttpClient)
    (stage username password : String) : HttpClient × Option GoError :=
  let out : TokenOut := { Token := "" }
  let url := loginURL stage
  match loginRequest w stage username password with
  | .error err => (c, some err)
  | .ok req =>
    match w.Do req with
    | .error err => (c, some (Wrapf err "POST request to endpoint: %s failed" [url]))
    | .ok resp =>
      match Decode w resp.Body out with
      | (_, some err) =>
        (c, some (Wrapf err
          "Failed to unmarshal json response from POST request to endpoint: %s" [url]))
      | (out, none) => ({ c with token := out.Token }, none)

/-! ## Verb operations (lines 78-155) -/

/-- The function `parseHttpResponse`: the headers are copied entry by entry into
a fresh map and the whole body is read. -/
def parseHttpResponse (resp : Response) : Except GoError HttpResponse :=
  let headers : Header := resp.Header.foldl (fun m hv => m.assign hv.1 hv.2) []
  match ReadAll resp.Body with
  | .error err => .error err
  | .ok body =>
    .ok { Status := resp.Status, StatusCode := resp.StatusCode, Headers := headers, Body := body }

/-- The flag `sendBody` of `send` (line 98): an input is present and the
method is `POST` or `PUT`. -/
def sendBody {α : Type} (method : String) (inp : Option α) : Bool :=
  inp.isSome && (method = "POST" || method = "PUT")

/-- The buffer `bs` of `send` after lines 97-104: the input is encoded into it
when `sendBody` holds, and it stays empty otherwise. -/
def encodeInput {α β : Type} (w : World α β) (method : String) (inp : Option α) :
    Except GoError Bytes :=
  match inp, sendBody method inp with
  | some v, true => Encode w.marshal [] v
  | _, _ => .ok []

/-- The first part of `send` (lines 95-115): the request handed to the
transport, or the error returned before there is one. -/
def buildRequest {α β : Type} (w : World α β) (c : HttpClient) (method url : String)
    (inp : Option α) : Except GoError Request :=
  match encodeInput w method inp with
  | .error err =>
    .error (Wrapf err "Failed marshal body for %s request to endpoint: %s" [method, url])
  | .ok bs =>
    match NewRequest w method url bs with
    | .error err =>
      .error (Wrapf err "Failed to create %s request to endpoint: %s" [method, url])
    | .ok req =>
      let h := (req.Header.Set "accept" "application/json").Set "authorization" c.token
      .ok { req with
        Header := if sendBody method inp then h.Set "content-type" "application/json" else h }

/-- What a verb call leaves behind: the two results of `send` (`none` for nil)
and the caller's output destination after the call. When deserializing fails
the destination is shown as it was before the call: what `json.Unmarshal` may
have stored in it before failing is not modelled. -/
structure SendResult (β : Type) where
  resp : Option HttpResponse
  err : Option GoError
  out : Option β

/-- The method `send`. -/
def HttpClient.send {α β : Type} (w : World α β) (c : HttpClient) (method url : String)
    (inp : Option α) (out : Option β) : SendResult β :=
  match buildRequest w c method url inp with
  | .error err => { resp := none, err := some err, out := out }
  | .ok req =>
    match w.Do req with
    | .error err =>
      { resp := none, err := some (Wrapf err "%s request to endpoint: %s failed" [method, url]),
        out := out }
    | .ok resp =>
      match parseHttpResponse resp with
      | .error err =>
        { resp := none,
          err := some (Wrapf err
            "Failed to parse response from %s request to endpoint: %s" [method, url]),
          out := out }
      | .ok r =>
        match out with
        | none => { resp := some r, err := none, out := none }
        | some dest =>
          match w.unmarshal r.Body dest with
          | .error err =>
            { resp := none,
              err := some (Wrapf err
                "Failed to unmarshal json response from %s request to endpoint: %s"
                [method, url]),
              out := out }
          | .ok filled => { resp := some r, err := none, out := some filled }

/-- The method `Get`. -/
def HttpClient.Get {α β : Type} (w : World α β) (c : HttpClient) (url : String)
    (out : Option β) : SendResult β :=
  c.send w "GET" url none out

/-- The method `Post`. -/
def HttpClient.Post {α β : Type} (w : World α β) (c : HttpClient) (url : String)
    (inp : Option α) (out : Option β) : SendResult β :=
  c.send w "POST" url inp out

/-- The method `Put`. -/
def HttpClient.Put {α β : Type} (w : World α β) (c : HttpClient) (url : String)
    (inp : Option α) (out : Option β) : SendResult β :=
  c.send w "PUT" url inp out

/-- The method `Delete`. -/
def HttpClient.Delete {α β : Type} (w : World α β) (c : HttpClient) (url : String)
    (out : Option β) : SendResult β :=
  c.send w "DELETE" url none out

/-- One verb call of a caller. -/
inductive Call (α β : Type) where
  | get (url : String) (out : Option β)
  | post (url : String) (inp : Option α) (out : Option β)
  | put (url : String) (inp : Option α) (out : Option β)
  | delete (url : String) (out : Option β)

/-- The method a verb passes to `send`. -/
def Call.method {α β : Type} : Call α β → String
  | .get _ _ => "GET"
  | .post _ _ _ => "POST"
  | .put _ _ _ => "PUT"
  | .delete _ _ => "DELETE"

/-- The URL a verb passes to `send`. -/
def Call.url {α β : Type} : Call α β → String
  | .get url _ => url
  | .post url _ _ => url
  | .put url _ _ => url
  | .delete url _ => url

/-- The input a verb passes to `send`: `Get` and `Delete` pass nil. -/
def Call.input {α β : Type} : Call α β → Option α
  | .get _ _ => none
  | .post _ inp _ => inp
  | .put _ inp _ => inp
  | .delete _ _ => none

/-- The output destination a verb passes to `send`. -/
def Call.output {α β : Type} : Call α β → Option β
  | .get _ out => out
  | .post _ _ out => out
  | .put _ _ out => out
  | .delete _ out => out

/-- The request a verb call builds on client `c`: the request of the `send` it
amounts to. -/
def Call.request {α β : Type} (w : World α β) (c : HttpClient) (call : Call α β) :
    Except GoError Request :=
  buildRequest w c call.method call.url call.input

/-- The verb call itself. -/
def HttpClient.call {α β : Type} (w : World α β) (c : HttpClient) :
    Call α β → SendResult β
  | .get url out => c.Get w url out
  | .post url inp out => c.Post w url inp out
  | .put url inp out => c.Put w url inp out
  | .delete url out => c.Delete w url out

/-- Verb calls made one after the other on one client, each in the world it
meets: the requests that get built, in order. No verb assigns to the client,
so each call finds it as the one before left it. -/
def requestsBuilt {α β : Type} (c : HttpClient) :
    List (World α β × Call α β) → List Request
  | [] => []
  | (w, call) :: rest =>
    match call.request w c with
    | .ok req => req :: requestsBuilt c rest
    | .error _ => requestsBuilt c rest

/-! ## Worlds for the examples -/

/-- A payload of the examples: a Go `int` that is not negative, or a channel,
a type that `json.Marshal` refuses. -/
inductive Payload where
  | int (n : Nat)
  | channel
  deriving DecidableEq, Repr

/-- A world in which the transport gives `answer` to every request. Input
payloads are integers or channels and output destinations integers;
`scanned` and `decoded` are what `encoding/json` makes of the body of the
answer, as a stream and as bytes for an integer destination. The login struct
is encoded as it is for names and passwords that need no escaping. The URL
`:` has no scheme and is refused by `http.NewRequest`; every other method and
URL is accepted. -/
def exampleWorld (answer : Except GoError Response) (scanned : Except GoError JsonValue)
    (decoded : Except GoError Nat) : World Payload Nat where
  marshal
    | .int n => .ok (asciiBytes (Nat.repr n))
    | .channel => .error (.base "json: unsupported type: chan int")
  marshalLogin up :=
    .ok (asciiBytes
      ("\x7b\"username\":\"" ++ up.1 ++ "\",\"password\":\"" ++ up.2 ++ "\"\x7d"))
  checkRequest _ url :=
    if url = ":" then some (.base "parse \":\": missing protocol scheme") else none
  Do _ := answer
  scanStream _ := scanned
  unmarshal _ _ := decoded

/-- A login answer `200 OK` with the body `{"token":"abc123"}`. -/
def tokenAnswer : Response :=
  { Status := "200 OK", StatusCode := 200,
    Header := [("Content-Type", ["application/json"])],
    Body := { data := asciiBytes "\x7b\"token\":\"abc123\"\x7d", readErr := none } }

/-- The JSON value of the body of `tokenAnswer`. -/
def tokenScanned : JsonValue := .object [("token", .string "abc123")]

/-- An answer `502 Bad Gateway` whose body is an HTML page. -/
def htmlAnswer : Response :=
  { Status := "502 Bad Gateway", StatusCode := 502,
    Header := [("Content-Type", ["text/html"])],
    Body := { data := asciiBytes "<html>Bad Gateway</html>", readErr := none } }

/-- The syntax error of `encoding/json` on the body of `htmlAnswer`. -/
def htmlSyntaxError : GoError :=
  .base "invalid character '<' looking for beginning of value"

/-- A login answer `200 OK` with the body `{"Token":"s3cr3t"}`: the key is
spelled with a capital letter. -/
def capitalAnswer : Response :=
  { Status := "200 OK", StatusCode := 200,
    Header := [("Content-Type", ["application/json"])],
    Body := { data := asciiBytes "\x7b\"Token\":\"s3cr3t\"\x7d", readErr := none } }

/-- The members of the JSON object in the body of `capitalAnswer`. -/
def capitalMembers : List (String × JsonValue) := [("Token", .string "s3cr3t")]

/-- A login answer `401 Unauthorized` with the body
`{"message":"Unauthorized"}`. -/
def unauthorizedAnswer : Response :=
  { Status := "401 Unauthorized", StatusCode := 401,
    Header := [("Content-Type", ["application/json"])],
    Body := { data := asciiBytes "\x7b\"message\":\"Unauthorized\"\x7d", readErr := none } }

/-- The members of the JSON object in the body of `unauthorizedAnswer`. -/
def unauthorizedMembers : List (String × JsonValue) := [("message", .string "Unauthorized")]

/-- An answer `500 Internal Server Error` whose body is plain text. -/
def serverErrorAnswer : Response :=
  { Status := "500 Internal Server Error", StatusCode := 500,
    Header := [("Content-Type", ["text/plain"])],
    Body := { data := asciiBytes "Internal Server Error", readErr := none } }

/-- The syntax error of `encoding/json` on the body of `serverErrorAnswer`. -/
def plainSyntaxError : GoError :=
  .base "invalid character 'I' looking for beginning of value"

/-- An answer `201 Created` with two values for the header `X-Custom` and the
body `42`. -/
def createdAnswer : Response :=
  { Status := "201 Created", StatusCode := 201,
    Header := [("Content-Type", ["application/json"]), ("X-Custom", ["a", "b"])],
    Body := { data := asciiBytes "42", readErr := none } }

/-- An answer `404 Not Found` with an empty body. -/
def notFoundAnswer : Response :=
  { Status := "404 Not Found", StatusCode := 404, Header := [],
    Body := { data := [], readErr := none } }

/-- An answer `200 OK` whose body breaks off while it is read. -/
def brokenAnswer : Response :=
  { Status := "200 OK", StatusCode := 200, Header := [],
    Body := { data := asciiBytes "\x7b\"id\":", readErr := some (.base "unexpected EOF") } }

/-- The error of a transport that cannot connect. -/
def refusedError : GoError := .base "dial tcp 127.0.0.1:1: connect: connection refused"

/-- The request `FetchToken` builds in `exampleWorld` for the stage `sandbox`. -/
def sandboxLoginRequest : Request :=
  { Method := "POST", URL := "https://api-auth.sandbox.users.enlight.skf.com/login",
    Body := asciiBytes "\x7b\"username\":\"u\",\"password\":\"p\"\x7d" ++ [10],
    Header := [("Accept", ["application/json"]), ("Content-Type", ["application/json"])] }

/-- The request `send` builds in `exampleWorld` for a `DELETE` of
`https://example.org/a` on a client holding the token `abc123`. -/
def deleteRequest : Request :=
  { Method := "DELETE", URL := "https://example.org/a", Body := [],
    Header := [("Accept", ["application/json"]), ("Authorization", ["abc123"])] }

/-- The request `send` builds in `exampleWorld` for a `POST` of the payload 42
to `https://example.org/b` on a client holding the token `abc123`. -/
def postRequest : Request :=
  { Method := "POST", URL := "https://example.org/b", Body := asciiBytes "42" ++ [10],
    Header := [("Accept", ["application/json"]), ("Authorization", ["abc123"]),
      ("Content-Type", ["application/json"])] }

/-- The request `send` builds in `exampleWorld` for a `GET` of
`https://example.org/a` on a client without a token. -/
def anonymousGetRequest : Request :=
  { Method := "GET", URL := "https://example.org/a", Body := [],
    Header := [("Accept", ["application/json"]), ("Authorization", [""])] }

/-- The request `send` builds in `exampleWorld` for a `GET` of
`https://example.org/a` on a client holding the token `abc123`. -/
def getRequest : Request :=
  { Method := "GET", URL := "https://example.org/a", Body := [],
    Header := [("Accept", ["application/json"]), ("Authorization", ["abc123"])] }

/-! ## Lemmas -/

/-- The canonical forms of the three header names the source sets. -/
theorem canonical_accept : CanonicalMIMEHeaderKey "accept" = "Accept" := by decide

theorem canonical_authorization :
    CanonicalMIMEHeaderKey "authorization" = "Authorization" := by decide

theorem canonical_content_type :
    CanonicalMIMEHeaderKey "content-type" = "Content-Type" := by decide

/-- A request from `http.NewRequest` has the method asked for (`GET` for the
empty method), the URL and body given, and no header yet. -/
theorem NewRequest_ok {α β : Type} {w : World α β} {method url : String} {body : Bytes}
    {req : Request} (h : NewRequest w method url body = .ok req) :
    req = { Method := if method = "" then "GET" else method, URL := url, Body := body,
            Header := [] } := by
  unfold NewRequest at h
  simp only at h
  split at h
  · cases h
  · cases h; rfl

/-- The request of `send` in full, when one is built. -/
theorem buildRequest_ok {α β : Type} {w : World α β} {c : HttpClient} {method url : String}
    {inp : Option α} {req : Request} (h : buildRequest w c method url inp = .ok req) :
    ∃ body : Bytes,
      encodeInput w method inp = .ok body ∧
      req = { Method := if method = "" then "GET" else method, URL := url, Body := body,
              Header :=
                if sendBody method inp = true
                then [("Accept", ["application/json"]), ("Authorization", [c.token]),
                      ("Content-Type", ["application/json"])]
                else [("Accept", ["application/json"]), ("Authorization", [c.token])] } := by
  unfold buildRequest at h
  simp only at h
  split at h
  · cases h
  · rename_i bs hbs
    split at h
    · cases h
    · rename_i r hr
      refine ⟨bs, hbs, ?_⟩
      have hr2 := NewRequest_ok hr
      cases h
      subst hr2
      split <;>
        simp [Header.Set, Header.assign, canonical_accept, canonical_authorization,
          canonical_content_type]

/-- The message of `send` for a failed serialization, with the method and the
URL filled in; the four lemmas after it do the same for the other steps. -/
theorem sprintf_marshal (method url : String) :
    Sprintf "Failed marshal body for %s request to endpoint: %s" [method, url] =
      "Failed marshal body for " ++ method ++ " request to endpoint: " ++ url := by
  apply String.ext
  simp [Sprintf, sprintfChars]

theorem sprintf_create (method url : String) :
    Sprintf "Failed to create %s request to endpoint: %s" [method, url] =
      "Failed to create " ++ method ++ " request to endpoint: " ++ url := by
  apply String.ext
  simp [Sprintf, sprintfChars]

theorem sprintf_transport (method url : String) :
    Sprintf "%s request to endpoint: %s failed" [method, url] =
      method ++ " request to endpoint: " ++ url ++ " failed" := by
  apply String.ext
  simp [Sprintf, sprintfChars]

theorem sprintf_parse (method url : String) :
    Sprintf "Failed to parse response from %s request to endpoint: %s" [method, url] =
      "Failed to parse response from " ++ method ++ " request to endpoint: " ++ url := by
  apply String.ext
  simp [Sprintf, sprintfChars]

theorem sprintf_unmarshal (method url : String) :
    Sprintf "Failed to unmarshal json response from %s request to endpoint: %s" [method, url] =
      "Failed to unmarshal json response from " ++ method ++ " request to endpoint: " ++ url := by
  apply String.ext
  simp [Sprintf, sprintfChars]

/-- Every request of `send` has the two headers `Accept` and `Authorization`,
the latter bound to the token of the client. -/
theorem buildRequest_headers {α β : Type} {w : World α β} {c : HttpClient}
    {method url : String} {inp : Option α} {req : Request}
    (h : buildRequest w c method url inp = .ok req) :
    req.Header.lookup "Accept" = some ["application/json"] ∧
    req.Header.lookup "Authorization" = some [c.token] := by
  obtain ⟨body, -, hreq⟩ := buildRequest_ok h
  subst hreq
  simp only
  split <;> exact ⟨by simp [Header.lookup, List.lookup], by simp [Header.lookup, List.lookup]⟩

/-- The requests built by a run of verb calls all carry the token of the
client. -/
theorem requestsBuilt_authorization {α β : Type} (c : HttpClient)
    (calls : List (World α β × Call α β)) :
    ∀ r ∈ requestsBuilt c calls, r.Header.lookup "Authorization" = some [c.token] := by
  induction calls with
  | nil => intro r hr; simp [requestsBuilt] at hr
  | cons wc rest ih =>
    obtain ⟨w, call⟩ := wc
    intro r hr
    unfold requestsBuilt at hr
    split at hr
    · rename_i req hreq
      rcases List.mem_cons.mp hr with rfl | hr
      · exact (buildRequest_headers hreq).2
      · exact ih r hr
    · exact ih r hr

/-- A verb call is the `send` with the method, URL, input and output of the
verb. -/
theorem call_eq_send {α β : Type} (w : World α β) (c : HttpClient) (call : Call α β) :
    c.call w call = c.send w call.method call.url call.input call.output := by
  cases call <;> rfl

/-- Whether `send` gets as far as a request does not depend on the client. -/
theorem buildRequest_any_client {α β : Type} {w : World α β} {c : HttpClient}
    {method url : String} {inp : Option α} {req : Request}
    (h : buildRequest w c method url inp = .ok req) (c2 : HttpClient) :
    (buildRequest w c2 method url inp).isOk = true := by
  unfold buildRequest at h ⊢
  simp only at h ⊢
  split at h
  · cases h
  · rename_i bs hbs
    split at h
    · cases h
    · rfl

/-- Members that do not match the field leave the struct as it was. -/
theorem foldl_no_match (members : List (String × JsonValue))
    (st : TokenOut × Option GoError)
    (hno : ∀ kv ∈ members, matchesField "token" kv.1 = false) :
    members.foldl
      (fun st kv => if matchesField "token" kv.1 then storeToken kv.2 st else st) st = st := by
  induction members generalizing st with
  | nil => rfl
  | cons kv rest ih =>
    simp only [List.foldl_cons]
    rw [hno kv (List.mem_cons_self _ _)]
    simp only [Bool.false_eq_true, if_false]
    exact ih st fun kv1 h1 => hno kv1 (List.mem_cons_of_mem _ h1)

/-- Binding a key that the map does not have adds the entry at the end. -/
theorem assign_fresh (h : Header) (key : String) (values : List String)
    (hk : key ∉ h.map Prod.fst) : h.assign key values = h ++ [(key, values)] := by
  induction h with
  | nil => rfl
  | cons kv rest ih =>
    obtain ⟨k, v⟩ := kv
    simp only [List.map_cons, List.mem_cons, not_or] at hk
    unfold Header.assign
    rw [if_neg (fun hkk => hk.1 hkk.symm), ih hk.2]
    rfl

/-- Copying a well-formed map entry by entry gives the same entries. -/
theorem copy_entries (l acc : Header) (hnd : ((acc ++ l).map Prod.fst).Nodup) :
    l.foldl (fun m hv => Header.assign m hv.1 hv.2) acc = acc ++ l := by
  induction l generalizing acc with
  | nil => simp
  | cons kv rest ih =>
    have hk : kv.1 ∉ acc.map Prod.fst := by
      intro hmem
      rw [List.map_append, List.map_cons] at hnd
      have hdis := (List.nodup_append.mp hnd).2.2
      exact hdis hmem (List.mem_cons_self _ _)
    simp only [List.foldl_cons]
    rw [assign_fresh acc kv.1 kv.2 hk]
    have hnd2 : (((acc ++ [(kv.1, kv.2)]) ++ rest).map Prod.fst).Nodup := by
      simpa [List.append_assoc] using hnd
    rw [ih _ hnd2]
    simp [List.append_assoc]

/-- The envelope that `parseHttpResponse` makes of a response whose body can
be read. -/
theorem parseHttpResponse_ok (resp : Response) (body : Bytes)
    (hread : ReadAll resp.Body = .ok body) :
    parseHttpResponse resp =
      .ok { Status := resp.Status, StatusCode := resp.StatusCode,
            Headers := resp.Header.foldl (fun m hv => Header.assign m hv.1 hv.2) [],
            Body := body } := by
  unfold parseHttpResponse
  simp [hread]

/-- The method `send` returns its envelope exactly when it returns no error. -/
theorem send_resp_none_iff {α β : Type} (w : World α β) (c : HttpClient) (method url : String)
    (inp : Option α) (out : Option β) :
    (c.send w method url inp out).resp = none ↔ (c.send w method url inp out).err ≠ none := by
  unfold HttpClient.send
  split
  · simp
  · split
    · simp
    · split
      · simp
      · split
        · simp
        · split <;> simp

/-- A name differs from another when their lengths differ. -/
theorem ne_of_length_ne {a b : String} (h : a.length ≠ b.length) : a ≠ b :=
  fun hab => h (congrArg String.length hab)

/-! ## Login -/

/-- C1: whenever `FetchToken` returns an error, whichever step failed (body
serialization, request construction, transport, or a response body that does
not decode), the client's stored token after the call is its value before
the call. -/
theorem FetchToken_error_keeps_token {α β : Type} (w : World α β) (c : HttpClient)
    (stage username password : String)
    (h : (c.FetchToken w stage username password).2 ≠ none) :
    (c.FetchToken w stage username password).1.token = c.token := by
  unfold HttpClient.FetchToken at h ⊢
  simp only at h ⊢
  split
  · rfl
  · split
    · rfl
    · split
      · rfl
      · rename_i hreq _ _ hdo _ _ hdec
        simp [hreq, hdo, hdec] at h

/-- Witness of C1: a client holding the token `old` logs in against a server
that answers with an HTML page; an error is returned and the token is still
`old`. -/
theorem FetchToken_error_keeps_token_witness :
    ((NewWithToken "old").FetchToken
        (exampleWorld (.ok htmlAnswer) (.error htmlSyntaxError) (.error htmlSyntaxError))
        "dev" "u" "p").2 ≠ none ∧
    ((NewWithToken "old").FetchToken
        (exampleWorld (.ok htmlAnswer) (.error htmlSyntaxError) (.error htmlSyntaxError))
        "dev" "u" "p").1.token = "old" :=
  ⟨by decide, FetchToken_error_keeps_token _ (NewWithToken "old") "dev" "u" "p" (by decide)⟩

/-- C3: the login URL is the fixed production URL when the stage is `prod`, and
for every other stage the per-stage URL with the stage in it; the request that
`FetchToken` builds is a POST to that URL. -/
theorem loginURL_by_stage (stage : String) :
    loginURL stage =
      (if stage = "prod" then "https://api-auth.users.enlight.skf.com/login"
       else "https://api-auth." ++ stage ++ ".users.enlight.skf.com/login") ∧
    ∀ (α β : Type) (w : World α β) (username password : String) (req : Request),
      loginRequest w stage username password = .ok req →
        req.Method = "POST" ∧ req.URL = loginURL stage := by
  constructor
  · unfold loginURL
    split
    · rfl
    · apply String.ext
      rfl
  · intro α β w username password req h
    unfold loginRequest at h
    simp only at h
    split at h
    · cases h
    · split at h
      · cases h
      · rename_i r hr
        have hr2 := NewRequest_ok hr
        cases h
        subst hr2
        exact ⟨rfl, rfl⟩

/-- Witness of C3: the login URLs for `prod` and for the stage `sandbox`, and
the login request for `sandbox`. -/
theorem loginURL_by_stage_witness :
    loginURL "prod" = "https://api-auth.users.enlight.skf.com/login" ∧
    loginURL "sandbox" = "https://api-auth.sandbox.users.enlight.skf.com/login" ∧
    loginRequest (exampleWorld (.ok tokenAnswer) (.ok tokenScanned) (.ok 0))
      "sandbox" "u" "p" = .ok sandboxLoginRequest ∧
    sandboxLoginRequest.Method = "POST" ∧
    sandboxLoginRequest.URL = loginURL "sandbox" :=
  ⟨(loginURL_by_stage "prod").1, (loginURL_by_stage "sandbox").1, rfl,
    (loginURL_by_stage "sandbox").2 Payload Nat
      (exampleWorld (.ok tokenAnswer) (.ok tokenScanned) (.ok 0)) "u" "p"
      sandboxLoginRequest rfl⟩

/-- C2: when the login exchange succeeds and the response body is the JSON
object `{"token": t}`, `FetchToken` returns no error and the stored token is
exactly `t`; every request built by verb calls made afterwards on that client,
in any number and order, has the `Authorization` header equal to `t`. -/
theorem FetchToken_success_stores_token {α β γ δ : Type} (w : World α β) (c : HttpClient)
    (stage username password t : String) (req : Request) (resp : Response)
    (hreq : loginRequest w stage username password = .ok req)
    (hdo : w.Do req = .ok resp)
    (hbody : w.scanStream resp.Body = .ok (.object [("token", .string t)])) :
    (c.FetchToken w stage username password).2 = none ∧
    (c.FetchToken w stage username password).1.token = t ∧
    ∀ (calls : List (World γ δ × Call γ δ)),
      ∀ r ∈ requestsBuilt (c.FetchToken w stage username password).1 calls,
        r.Header.lookup "Authorization" = some [t] ∧ r.Header.Get "Authorization" = t := by
  have hres : c.FetchToken w stage username password = ({ token := t }, none) := by
    unfold HttpClient.FetchToken
    simp [hreq, hdo, Decode, hbody, decodeTokenOut, storeToken, matchesField]
  rw [hres]
  refine ⟨rfl, rfl, ?_⟩
  intro calls r hr
  have h := requestsBuilt_authorization _ calls r hr
  refine ⟨h, ?_⟩
  have hcanon : CanonicalMIMEHeaderKey "Authorization" = "Authorization" := by decide
  simp [Header.Get, hcanon, h]

/-- Witness of C2: after a login answered with `{"token":"abc123"}`, a `Get`
and a `Post` send `Authorization: abc123`. -/
theorem FetchToken_success_stores_token_witness :
    (New.FetchToken (exampleWorld (.ok tokenAnswer) (.ok tokenScanned) (.ok 0))
        "dev" "u" "p").2 = none ∧
    (New.FetchToken (exampleWorld (.ok tokenAnswer) (.ok tokenScanned) (.ok 0))
        "dev" "u" "p").1.token = "abc123" ∧
    requestsBuilt
        (New.FetchToken (exampleWorld (.ok tokenAnswer) (.ok tokenScanned) (.ok 0))
          "dev" "u" "p").1
        [(exampleWorld (.ok htmlAnswer) (.error htmlSyntaxError) (.error htmlSyntaxError),
            Call.get "https://example.org/a" none),
         (exampleWorld (.ok htmlAnswer) (.error htmlSyntaxError) (.error htmlSyntaxError),
            Call.post "https://example.org/b" (some (.int 42)) none)] =
      [getRequest, postRequest] ∧
    getRequest.Header.lookup "Authorization" = some ["abc123"] ∧
    postRequest.Header.Get "Authorization" = "abc123" :=
  have h := FetchToken_success_stores_token (γ := Payload) (δ := Nat)
    (exampleWorld (.ok tokenAnswer) (.ok tokenScanned) (.ok 0)) New "dev" "u" "p" "abc123"
    _ tokenAnswer rfl rfl rfl
  ⟨h.1, h.2.1, by decide,
    (h.2.2 [(exampleWorld (.ok htmlAnswer) (.error htmlSyntaxError) (.error htmlSyntaxError),
            Call.get "https://example.org/a" none),
         (exampleWorld (.ok htmlAnswer) (.error htmlSyntaxError) (.error htmlSyntaxError),
            Call.post "https://example.org/b" (some (.int 42)) none)]
      getRequest (by decide)).1,
    (h.2.2 [(exampleWorld (.ok htmlAnswer) (.error htmlSyntaxError) (.error htmlSyntaxError),
            Call.get "https://example.org/a" none),
         (exampleWorld (.ok htmlAnswer) (.error htmlSyntaxError) (.error htmlSyntaxError),
            Call.post "https://example.org/b" (some (.int 42)) none)]
      postRequest (by decide)).2⟩

/-- C10, as stated, fails: the answer `{"Token":"s3cr3t"}` has no member named
`token`, yet the decoder matches keys to the field without regard to letter
case, so `FetchToken` stores `s3cr3t` and not the empty string. -/
theorem FetchToken_capital_key_counterexample :
    (loginRequest (exampleWorld (.ok capitalAnswer) (.ok (.object capitalMembers)) (.ok 0))
        "dev" "u" "p").isOk = true ∧
    (exampleWorld (.ok capitalAnswer) (.ok (.object capitalMembers)) (.ok 0)).scanStream
        capitalAnswer.Body = .ok (.object capitalMembers) ∧
    (∀ kv ∈ capitalMembers, kv.1 ≠ "token") ∧
    ((NewWithToken "old").FetchToken
        (exampleWorld (.ok capitalAnswer) (.ok (.object capitalMembers)) (.ok 0))
        "dev" "u" "p") = ({ token := "s3cr3t" }, none) ∧
    ((NewWithToken "old").FetchToken
        (exampleWorld (.ok capitalAnswer) (.ok (.object capitalMembers)) (.ok 0))
        "dev" "u" "p").1.token ≠ "" := by
  refine ⟨by decide, rfl, by decide, by decide, by decide⟩

/-- C10, amended: `FetchToken` does not look at the status code. Whatever the
status code and the token stored before, when the response body is a JSON
object none of whose keys matches `token` (exactly or with letter case
ignored), no error is returned and the stored token becomes the empty
string. -/
theorem FetchToken_no_token_member {α β : Type} (w : World α β) (c : HttpClient)
    (stage username password : String) (req : Request) (resp : Response)
    (members : List (String × JsonValue))
    (hreq : loginRequest w stage username password = .ok req)
    (hdo : w.Do req = .ok resp)
    (hbody : w.scanStream resp.Body = .ok (.object members))
    (hno : ∀ kv ∈ members, matchesField "token" kv.1 = false) :
    c.FetchToken w stage username password = ({ token := "" }, none) := by
  unfold HttpClient.FetchToken
  simp [hreq, hdo, Decode, hbody, decodeTokenOut, foldl_no_match members _ hno]

/-- Witness of C10, amended: a client holding `old` logs in and is answered
`401 Unauthorized` with `{"message":"Unauthorized"}`; no error is returned and
the token is now empty. -/
theorem FetchToken_no_token_member_witness :
    unauthorizedAnswer.StatusCode = 401 ∧
    (NewWithToken "old").FetchToken
      (exampleWorld (.ok unauthorizedAnswer) (.ok (.object unauthorizedMembers)) (.ok 0))
      "dev" "u" "p" = ({ token := "" }, none) :=
  ⟨rfl, FetchToken_no_token_member
    (exampleWorld (.ok unauthorizedAnswer) (.ok (.object unauthorizedMembers)) (.ok 0))
    (NewWithToken "old") "dev" "u" "p" _ unauthorizedAnswer unauthorizedMembers rfl rfl rfl
    (by decide)⟩

/-! ## Verb operations -/

/-- C4, as stated, fails: a `Get` with an output destination, answered with
status 500 and the plain text `Internal Server Error`, gets as far as reading
the body and fails to deserialize it; it returns the error and no envelope,
so neither the status code nor the body bytes reach the caller. -/
theorem send_unmarshal_failure_counterexample :
    ReadAll serverErrorAnswer.Body = .ok (asciiBytes "Internal Server Error") ∧
    ((NewWithToken "abc123").Get
        (exampleWorld (.ok serverErrorAnswer) (.error plainSyntaxError)
          (.error plainSyntaxError))
        "https://example.org/a" (some 0)).err ≠ none ∧
    ((NewWithToken "abc123").Get
        (exampleWorld (.ok serverErrorAnswer) (.error plainSyntaxError)
          (.error plainSyntaxError))
        "https://example.org/a" (some 0)).resp = none := by
  refine ⟨rfl, by decide, by decide⟩

/-- C4, amended: when the transport exchange succeeds and the response body is
read, but deserializing the body into the output destination fails, the call
returns the error that wraps the cause and no envelope; and the envelope is
absent on every failure of `send`: whenever an error is returned, and so on
each of the four earlier failures (serialization, request construction,
transport, response parsing), each of which returns an error. -/
theorem send_unmarshal_failure_no_envelope {α β : Type} (w : World α β) (c : HttpClient)
    (method url : String) (inp : Option α) :
    (∀ (dest : β) (req : Request) (resp : Response) (body : Bytes) (e : GoError),
      buildRequest w c method url inp = .ok req → w.Do req = .ok resp →
      ReadAll resp.Body = .ok body → w.unmarshal body dest = .error e →
      (c.send w method url inp (some dest)).err =
        some (Wrapf e "Failed to unmarshal json response from %s request to endpoint: %s"
          [method, url]) ∧
      (c.send w method url inp (some dest)).resp = none) ∧
    (∀ out : Option β,
      (c.send w method url inp out).err ≠ none → (c.send w method url inp out).resp = none) ∧
    (∀ (out : Option β) (e : GoError), encodeInput w method inp = .error e →
      (c.send w method url inp out).err ≠ none ∧ (c.send w method url inp out).resp = none) ∧
    (∀ (out : Option β) (bs : Bytes) (e : GoError), encodeInput w method inp = .ok bs →
      NewRequest w method url bs = .error e →
      (c.send w method url inp out).err ≠ none ∧ (c.send w method url inp out).resp = none) ∧
    (∀ (out : Option β) (req : Request) (e : GoError),
      buildRequest w c method url inp = .ok req → w.Do req = .error e →
      (c.send w method url inp out).err ≠ none ∧ (c.send w method url inp out).resp = none) ∧
    (∀ (out : Option β) (req : Request) (resp : Response) (e : GoError),
      buildRequest w c method url inp = .ok req → w.Do req = .ok resp →
      ReadAll resp.Body = .error e →
      (c.send w method url inp out).err ≠ none ∧ (c.send w method url inp out).resp = none) := by
  refine ⟨?_, fun out => (send_resp_none_iff w c method url inp out).mpr, ?_, ?_, ?_, ?_⟩
  · intro dest req resp body e hreq hdo hread hun
    constructor
    · unfold HttpClient.send
      simp [hreq, hdo, parseHttpResponse_ok resp body hread, hun]
    · unfold HttpClient.send
      simp [hreq, hdo, parseHttpResponse_ok resp body hread, hun]
  · intro out e h
    unfold HttpClient.send buildRequest
    simp [h]
  · intro out bs e h1 h2
    unfold HttpClient.send buildRequest
    simp [h1, h2]
  · intro out req e h1 h2
    unfold HttpClient.send
    simp [h1, h2]
  · intro out req resp e h1 h2 h3
    unfold HttpClient.send parseHttpResponse
    simp [h1, h2, h3]

/-- Witness of C4, amended: the `Get` answered with status 500 and a plain
text body returns the wrapped error and no envelope, and so does a `Get`
whose connection is refused. -/
theorem send_unmarshal_failure_no_envelope_witness :
    ((NewWithToken "abc123").send
        (exampleWorld (.ok serverErrorAnswer) (.error plainSyntaxError)
          (.error plainSyntaxError))
        "GET" "https://example.org/a" none (some 0)).err =
      some (.wrapped plainSyntaxError
        "Failed to unmarshal json response from GET request to endpoint: https://example.org/a") ∧
    ((NewWithToken "abc123").send
        (exampleWorld (.ok serverErrorAnswer) (.error plainSyntaxError)
          (.error plainSyntaxError))
        "GET" "https://example.org/a" none (some 0)).resp = none ∧
    ((NewWithToken "abc123").send
        (exampleWorld (.error refusedError) (.error (.base "EOF")) (.ok 0))
        "GET" "https://example.org/a" none (some 0)).err ≠ none ∧
    ((NewWithToken "abc123").send
        (exampleWorld (.error refusedError) (.error (.base "EOF")) (.ok 0))
        "GET" "https://example.org/a" none (some 0)).resp = none :=
  have h := (send_unmarshal_failure_no_envelope
    (exampleWorld (.ok serverErrorAnswer) (.error plainSyntaxError) (.error plainSyntaxError))
    (NewWithToken "abc123") "GET" "https://example.org/a" none).1
    0 getRequest serverErrorAnswer (asciiBytes "Internal Server Error") plainSyntaxError
    rfl rfl rfl rfl
  have h2 := (send_unmarshal_failure_no_envelope
    (exampleWorld (.error refusedError) (.error (.base "EOF")) (.ok 0))
    (NewWithToken "abc123") "GET" "https://example.org/a" none).2.2.2.2.1
    (some 0) getRequest refusedError rfl rfl
  ⟨h.1, h.2, h2.1, h2.2⟩

/-- C5: a request built by `send` with the method `GET` or `DELETE` has an
empty body and no `Content-Type` header, whatever the URL, the token and the
input payload; `Get` and `Delete` are `send` with these methods. -/
theorem send_get_delete_without_body {α β : Type} (w : World α β) (c : HttpClient)
    (method url : String) (inp : Option α) (req : Request)
    (hm : method = "GET" ∨ method = "DELETE")
    (h : buildRequest w c method url inp = .ok req) :
    req.Body = [] ∧ req.Header.lookup "Content-Type" = none ∧
    req.Header.map Prod.fst = ["Accept", "Authorization"] ∧
    (∀ out : Option β, c.Get w url out = c.send w "GET" url none out) ∧
    (∀ out : Option β, c.Delete w url out = c.send w "DELETE" url none out) := by
  obtain ⟨body, hbody, hreq⟩ := buildRequest_ok h
  have hs : sendBody method inp = false := by
    rcases hm with rfl | rfl <;> simp [sendBody]
  unfold encodeInput at hbody
  rw [hs] at hbody hreq
  have hb : body = [] := by
    cases inp <;> simp at hbody <;> exact hbody
  subst hreq hb
  exact ⟨rfl, by simp [Header.lookup, List.lookup], by simp, fun _ => rfl, fun _ => rfl⟩

/-- Witness of C5: a `DELETE` built by `send` with an input payload supplied all
the same. -/
theorem send_get_delete_without_body_witness :
    buildRequest (exampleWorld (.ok notFoundAnswer) (.error (.base "EOF"))
        (.error (.base "unexpected end of JSON input")))
      (NewWithToken "abc123") "DELETE" "https://example.org/a" (some (.int 42)) =
      .ok deleteRequest ∧
    deleteRequest.Body = [] ∧ deleteRequest.Header.lookup "Content-Type" = none :=
  have h := send_get_delete_without_body
    (exampleWorld (.ok notFoundAnswer) (.error (.base "EOF"))
      (.error (.base "unexpected end of JSON input")))
    (NewWithToken "abc123") "DELETE" "https://example.org/a" (some (.int 42)) deleteRequest
    (Or.inr rfl) rfl
  ⟨rfl, h.1, h.2.1⟩

/-- C6, as stated, fails: the body of a `Post` of the payload 42 is not the
JSON encoding `42` of the payload but that encoding followed by a newline
character, which `Encoder.Encode` appends. -/
theorem send_post_body_counterexample :
    (exampleWorld (.ok createdAnswer) (.ok (.number "42")) (.ok 42)).marshal (.int 42) =
      .ok [52, 50] ∧
    buildRequest (exampleWorld (.ok createdAnswer) (.ok (.number "42")) (.ok 42))
      (NewWithToken "abc123") "POST" "https://example.org/b" (some (.int 42)) =
      .ok postRequest ∧
    postRequest.Body = [52, 50, 10] ∧ postRequest.Body ≠ [52, 50] := by
  refine ⟨rfl, rfl, by decide, by decide⟩

/-- C6, amended: for a `Post` or `Put` with an input that is present and
serializes, the body of the request that is built is the JSON encoding of the
input followed by one newline character, and the request carries the header
`Content-Type: application/json`. -/
theorem send_post_put_body {α β : Type} (w : World α β) (c : HttpClient)
    (method url : String) (v : α) (bs : Bytes) (req : Request)
    (hm : method = "POST" ∨ method = "PUT")
    (hmar : w.marshal v = .ok bs)
    (h : buildRequest w c method url (some v) = .ok req) :
    req.Body = bs ++ [10] ∧
    req.Header.lookup "Content-Type" = some ["application/json"] ∧
    req.Header.Get "content-type" = "application/json" ∧
    (∀ out : Option β, c.Post w url (some v) out = c.send w "POST" url (some v) out) ∧
    (∀ out : Option β, c.Put w url (some v) out = c.send w "PUT" url (some v) out) := by
  obtain ⟨body, hbody, hreq⟩ := buildRequest_ok h
  have hs : sendBody method (some v) = true := by
    rcases hm with rfl | rfl <;> simp [sendBody]
  unfold encodeInput at hbody
  rw [hs] at hbody hreq
  have hb : body = bs ++ [10] := by
    simp [Encode, hmar] at hbody
    exact hbody.symm
  subst hreq hb
  refine ⟨rfl, by simp [Header.lookup, List.lookup], ?_, fun _ => rfl, fun _ => rfl⟩
  simp [Header.Get, canonical_content_type, Header.lookup, List.lookup]

/-- Witness of C6, amended: the `POST` of the payload 42. -/
theorem send_post_put_body_witness :
    postRequest.Body = [52, 50] ++ [10] ∧
    postRequest.Header.lookup "Content-Type" = some ["application/json"] :=
  have h := send_post_put_body
    (exampleWorld (.ok createdAnswer) (.ok (.number "42")) (.ok 42))
    (NewWithToken "abc123") "POST" "https://example.org/b" (.int 42) [52, 50] postRequest
    (Or.inl rfl) rfl rfl
  ⟨h.1, h.2.1⟩

/-- C7: every request that `send` builds, whatever the method, URL, input and
token, carries `Accept: application/json` and an `Authorization` header whose
single value is the token of the client as it stands, the empty token
included: nothing is put in front of it, and it is not checked, as the request
is built just as well on a client whose token is empty. -/
theorem send_accept_and_authorization {α β : Type} (w : World α β) (c : HttpClient)
    (method url : String) (inp : Option α) (req : Request)
    (h : buildRequest w c method url inp = .ok req) :
    req.Header.lookup "Accept" = some ["application/json"] ∧
    req.Header.Get "accept" = "application/json" ∧
    req.Header.lookup "Authorization" = some [c.token] ∧
    req.Header.Get "authorization" = c.token ∧
    (buildRequest w { token := "" } method url inp).isOk = true := by
  have hh := buildRequest_headers h
  refine ⟨hh.1, ?_, hh.2, ?_, buildRequest_any_client h _⟩
  · simp [Header.Get, canonical_accept, hh.1]
  · simp [Header.Get, canonical_authorization, hh.2]

/-- Witness of C7: a `GET` on a client made by `New`, whose token is empty,
sends an `Authorization` header with the empty value. -/
theorem send_accept_and_authorization_witness :
    anonymousGetRequest.Header.lookup "Accept" = some ["application/json"] ∧
    anonymousGetRequest.Header.lookup "Authorization" = some [""] :=
  have h := send_accept_and_authorization
    (exampleWorld (.ok notFoundAnswer) (.error (.base "EOF"))
      (.error (.base "unexpected end of JSON input")))
    New "GET" "https://example.org/a" none anonymousGetRequest rfl
  ⟨h.1, h.2.2.1⟩

/-- C8: whatever the status code of the transport response, when its body is
read and either no output destination is supplied or the body deserializes
into it, `send` returns no error and an envelope with the status text, the
status code and the body of the response and with its header map: the same
names, each with its whole list of values in order. -/
theorem send_success_envelope {α β : Type} (w : World α β) (c : HttpClient)
    (method url : String) (inp : Option α) (out : Option β) (req : Request)
    (resp : Response) (body : Bytes)
    (hreq : buildRequest w c method url inp = .ok req)
    (hdo : w.Do req = .ok resp)
    (hread : ReadAll resp.Body = .ok body)
    (hwf : resp.Header.WellFormed)
    (hout : out = none ∨ ∃ dest filled, out = some dest ∧ w.unmarshal body dest = .ok filled) :
    (c.send w method url inp out).err = none ∧
    (c.send w method url inp out).resp =
      some { Status := resp.Status, StatusCode := resp.StatusCode, Headers := resp.Header,
             Body := body } ∧
    ∀ r, (c.send w method url inp out).resp = some r →
      ∀ key, r.Headers.lookup key = resp.Header.lookup key := by
  have hcopy : resp.Header.foldl (fun m hv => Header.assign m hv.1 hv.2) [] = resp.Header := by
    have h := copy_entries resp.Header [] (by simpa using hwf)
    simpa using h
  have hparse := parseHttpResponse_ok resp body hread
  rw [hcopy] at hparse
  have hres : (c.send w method url inp out).err = none ∧
      (c.send w method url inp out).resp =
        some { Status := resp.Status, StatusCode := resp.StatusCode, Headers := resp.Header,
               Body := body } := by
    rcases hout with rfl | ⟨dest, filled, rfl, hun⟩
    · unfold HttpClient.send
      simp [hreq, hdo, hparse]
    · unfold HttpClient.send
      simp [hreq, hdo, hparse, hun]
  refine ⟨hres.1, hres.2, ?_⟩
  intro r hr key
  rw [hres.2] at hr
  cases hr
  rfl

/-- Witness of C8: a `Get` without destination answered `404 Not Found`, and a
`Get` with a destination answered `201 Created` with two values for
`X-Custom`. -/
theorem send_success_envelope_witness :
    ((NewWithToken "abc123").send
        (exampleWorld (.ok notFoundAnswer) (.error (.base "EOF"))
          (.error (.base "unexpected end of JSON input")))
        "GET" "https://example.org/a" none none).resp =
      some { Status := "404 Not Found", StatusCode := 404, Headers := [], Body := [] } ∧
    ((NewWithToken "abc123").send
        (exampleWorld (.ok createdAnswer) (.ok (.number "42")) (.ok 42))
        "GET" "https://example.org/a" none (some 0)).resp =
      some { Status := "201 Created", StatusCode := 201,
             Headers := [("Content-Type", ["application/json"]), ("X-Custom", ["a", "b"])],
             Body := [52, 50] } :=
  ⟨(send_success_envelope
      (exampleWorld (.ok notFoundAnswer) (.error (.base "EOF"))
        (.error (.base "unexpected end of JSON input")))
      (NewWithToken "abc123") "GET" "https://example.org/a" none none getRequest
      notFoundAnswer [] rfl rfl rfl (by decide) (Or.inl rfl)).2.1,
   (send_success_envelope
      (exampleWorld (.ok createdAnswer) (.ok (.number "42")) (.ok 42))
      (NewWithToken "abc123") "GET" "https://example.org/a" none (some 0) getRequest
      createdAnswer [52, 50] rfl rfl rfl (by decide) (Or.inr ⟨0, 42, rfl, rfl⟩)).2.1⟩

/-- C9: each of the five steps of `send` that can fail (serializing the input,
constructing the request, the transport, parsing the response, deserializing
the output) returns an error that wraps the cause under a message naming the
method and the URL; for one method, URL and cause the five errors have
pairwise distinct texts, so the text tells which step failed. -/
theorem send_errors_name_step {α β : Type} (w : World α β) (c : HttpClient)
    (method url : String) (inp : Option α) (out : Option β) (e : GoError) :
    (encodeInput w method inp = .error e →
      (c.send w method url inp out).err =
        some (.wrapped e
          ("Failed marshal body for " ++ method ++ " request to endpoint: " ++ url))) ∧
    (∀ bs, encodeInput w method inp = .ok bs → NewRequest w method url bs = .error e →
      (c.send w method url inp out).err =
        some (.wrapped e ("Failed to create " ++ method ++ " request to endpoint: " ++ url))) ∧
    (∀ req, buildRequest w c method url inp = .ok req → w.Do req = .error e →
      (c.send w method url inp out).err =
        some (.wrapped e (method ++ " request to endpoint: " ++ url ++ " failed"))) ∧
    (∀ req resp, buildRequest w c method url inp = .ok req → w.Do req = .ok resp →
      ReadAll resp.Body = .error e →
      (c.send w method url inp out).err =
        some (.wrapped e
          ("Failed to parse response from " ++ method ++ " request to endpoint: " ++ url))) ∧
    (∀ req resp body dest, buildRequest w c method url inp = .ok req → w.Do req = .ok resp →
      ReadAll resp.Body = .ok body → out = some dest → w.unmarshal body dest = .error e →
      (c.send w method url inp out).err =
        some (.wrapped e
          ("Failed to unmarshal json response from " ++ method ++ " request to endpoint: "
            ++ url))) ∧
    List.Pairwise (fun a b => a ≠ b)
      ([ "Failed marshal body for " ++ method ++ " request to endpoint: " ++ url,
         "Failed to create " ++ method ++ " request to endpoint: " ++ url,
         method ++ " request to endpoint: " ++ url ++ " failed",
         "Failed to parse response from " ++ method ++ " request to endpoint: " ++ url,
         "Failed to unmarshal json response from " ++ method ++ " request to endpoint: "
           ++ url ].map fun msg => (GoError.wrapped e msg).Error) := by
  refine ⟨?_, ?_, ?_, ?_, ?_, ?_⟩
  · intro h
    unfold HttpClient.send buildRequest
    simp [h, Wrapf, sprintf_marshal]
  · intro bs h1 h2
    unfold HttpClient.send buildRequest
    simp [h1, h2, Wrapf, sprintf_create]
  · intro req h1 h2
    unfold HttpClient.send
    simp [h1, h2, Wrapf, sprintf_transport]
  · intro req resp h1 h2 h3
    unfold HttpClient.send parseHttpResponse
    simp [h1, h2, h3, Wrapf, sprintf_parse]
  · intro req resp body dest h1 h2 h3 h4 h5
    subst h4
    unfold HttpClient.send
    simp [h1, h2, parseHttpResponse_ok resp body h3, h5, Wrapf, sprintf_unmarshal]
  · have l1 : "Failed marshal body for ".length = 24 := rfl
    have l2 : "Failed to create ".length = 17 := rfl
    have l3 : " failed".length = 7 := rfl
    have l4 : "Failed to parse response from ".length = 30 := rfl
    have l5 : "Failed to unmarshal json response from ".length = 39 := rfl
    simp only [List.map, List.pairwise_cons, List.mem_cons, List.mem_singleton,
      forall_eq_or_imp, forall_eq, List.not_mem_nil, List.Pairwise.nil, GoError.Error]
    refine ⟨⟨?_, ?_, ?_, ?_, ?_⟩, ⟨?_, ?_, ?_, ?_⟩, ⟨?_, ?_, ?_⟩, ⟨?_, ?_⟩, ?_, trivial⟩ <;>
      first
        | (intro a ha; exact ha.elim)
        | (apply ne_of_length_ne
           simp only [String.length_append, l1, l2, l3, l4, l5]
           omega)

/-- Witness of C9: the five failures, each in a world that produces it: a
`POST` of a channel, a `GET` of the URL `:`, a refused connection, a body that
breaks off, and a plain text body for an integer destination. -/
theorem send_errors_name_step_witness :
    ((NewWithToken "abc123").send
        (exampleWorld (.ok notFoundAnswer) (.error (.base "EOF")) (.ok 0))
        "POST" "https://example.org/b" (some .channel) none).err =
      some (.wrapped (.base "json: unsupported type: chan int")
        "Failed marshal body for POST request to endpoint: https://example.org/b") ∧
    ((NewWithToken "abc123").send
        (exampleWorld (.ok notFoundAnswer) (.error (.base "EOF")) (.ok 0))
        "GET" ":" none none).err =
      some (.wrapped (.base "parse \":\": missing protocol scheme")
        "Failed to create GET request to endpoint: :") ∧
    ((NewWithToken "abc123").send
        (exampleWorld (.error refusedError) (.error (.base "EOF")) (.ok 0))
        "GET" "https://example.org/a" none none).err =
      some (.wrapped refusedError
        "GET request to endpoint: https://example.org/a failed") ∧
    ((NewWithToken "abc123").send
        (exampleWorld (.ok brokenAnswer) (.error (.base "unexpected EOF")) (.ok 0))
        "GET" "https://example.org/a" none none).err =
      some (.wrapped (.base "unexpected EOF")
        "Failed to parse response from GET request to endpoint: https://example.org/a") ∧
    ((NewWithToken "abc123").send
        (exampleWorld (.ok serverErrorAnswer) (.error plainSyntaxError)
          (.error plainSyntaxError))
        "GET" "https://example.org/a" none (some 0)).err =
      some (.wrapped plainSyntaxError
        "Failed to unmarshal json response from GET request to endpoint: https://example.org/a") :=
  ⟨(send_errors_name_step
      (exampleWorld (.ok notFoundAnswer) (.error (.base "EOF")) (.ok 0))
      (NewWithToken "abc123") "POST" "https://example.org/b" (some .channel) none
      (.base "json: unsupported type: chan int")).1 rfl,
   (send_errors_name_step
      (exampleWorld (.ok notFoundAnswer) (.error (.base "EOF")) (.ok 0))
      (NewWithToken "abc123") "GET" ":" none none
      (.base "parse \":\": missing protocol scheme")).2.1 [] rfl rfl,
   (send_errors_name_step
      (exampleWorld (.error refusedError) (.error (.base "EOF")) (.ok 0))
      (NewWithToken "abc123") "GET" "https://example.org/a" none none
      refusedError).2.2.1 getRequest rfl rfl,
   (send_errors_name_step
      (exampleWorld (.ok brokenAnswer) (.error (.base "unexpected EOF")) (.ok 0))
      (NewWithToken "abc123") "GET" "https://example.org/a" none none
      (.base "unexpected EOF")).2.2.2.1 getRequest brokenAnswer rfl rfl rfl,
   (send_errors_name_step
      (exampleWorld (.ok serverErrorAnswer) (.error plainSyntaxError)
        (.error plainSyntaxError))
      (NewWithToken "abc123") "GET" "https://example.org/a" none (some 0)
      plainSyntaxError).2.2.2.2.1 getRequest serverErrorAnswer
        (asciiBytes "Internal Server Error") 0 rfl rfl rfl rfl rfl⟩

end GodogHttp
